import Mathlib

/-!
Verification development for the `luke_roberts` Home Assistant custom
component (`custom_components/luke_roberts/light.py`), a BLE lamp driver.

The development shallowly embeds the protocol/state logic of
`LukeRobertsLuvoBleLight`:

* bytes are `ℕ` (each in `[0, 255]` where the code builds `bytes(...)`),
  frames are `List ℕ`;
* Python `dict` (insertion ordered, overwrite-on-existing-key) is an
  association list `List (κ × ℕ)` with `dictSet` / `dictGet`;
* the firmware is a parameter `g : ℕ → SceneReply` giving, for each scene
  id, the notification payload answering `A0 01 01 <id>`;
* the unbounded `while True` loop of `_update_effect_list` is embedded
  with explicit fuel: `BuildOutcome.fuelOut` means the loop has not
  finished within the given number of iterations (so "the loop
  terminates" is "some fuel yields a non-`fuelOut` outcome");
* Python `int(x)` on a non-negative number truncates (floor); it is
  embedded on `ℚ` by `pyInt`.  The claims evaluate only inputs where the
  double-precision expressions in the source (`(b / 255) * 100`,
  `(hue / 360) * 65535`, `(sat / 100) * 255`) are far enough from integer
  boundaries that the float result has the same truncation as the exact
  rational, so the rational embedding is faithful there.
-/

/-- Python `int(q)` for a rational: truncation toward zero (`math.trunc`).
For the non-negative arguments arising in this driver it is `⌊q⌋`. -/
def pyInt (q : ℚ) : ℤ := if 0 ≤ q then ⌊q⌋ else ⌈q⌉

/-- A notification payload answering a "get scene descriptor" request
(`bytearray` in the source). -/
abbrev SceneReply := List ℕ

/-- The `_effect_map` dictionary with byte-string keys: the keys are the
UTF-8 byte representations of the Python `str` keys (UTF-8 decoding is
injective, so tracking the raw name bytes is faithful). -/
abbrev EffectTable := List (List ℕ × ℕ)

/-- Python `d[k] = v` on a `dict` represented as an insertion-ordered
association list: overwrite in place if the key exists, else append. -/
def dictSet {κ : Type} [DecidableEq κ] (m : List (κ × ℕ)) (k : κ) (v : ℕ) :
    List (κ × ℕ) :=
  if m.any (fun p => decide (p.1 = k)) then
    m.map (fun p => if p.1 = k then (k, v) else p)
  else m ++ [(k, v)]

/-- Python `d.get(k)` on a `dict` represented as an association list. -/
def dictGet {κ : Type} [DecidableEq κ] (m : List (κ × ℕ)) (k : κ) : Option ℕ :=
  (m.find? (fun p => decide (p.1 = k))).map (fun p => p.2)

/-- Validity of a byte string under Python's strict UTF-8 decoder
(`bytearray.decode()`): rejects bytes `0x80`–`0xC1` and `0xF5`–`0xFF` as
lead bytes, overlong encodings, surrogates (`ED A0`–`ED BF`), and values
above `U+10FFFF`. -/
def utf8Valid : List ℕ → Bool
  | [] => true
  | b :: rest =>
    if b ≤ 0x7F then utf8Valid rest
    else if 0xC2 ≤ b ∧ b ≤ 0xDF then
      match rest with
      | c1 :: rest' => (0x80 ≤ c1 && c1 ≤ 0xBF) && utf8Valid rest'
      | [] => false
    else if 0xE0 ≤ b ∧ b ≤ 0xEF then
      match rest with
      | c1 :: c2 :: rest' =>
        (if b = 0xE0 then 0xA0 ≤ c1 && c1 ≤ 0xBF
         else if b = 0xED then 0x80 ≤ c1 && c1 ≤ 0x9F
         else 0x80 ≤ c1 && c1 ≤ 0xBF) &&
        (0x80 ≤ c2 && c2 ≤ 0xBF) && utf8Valid rest'
      | _ => false
    else if 0xF0 ≤ b ∧ b ≤ 0xF4 then
      match rest with
      | c1 :: c2 :: c3 :: rest' =>
        (if b = 0xF0 then 0x90 ≤ c1 && c1 ≤ 0xBF
         else if b = 0xF4 then 0x80 ≤ c1 && c1 ≤ 0x8F
         else 0x80 ≤ c1 && c1 ≤ 0xBF) &&
        (0x80 ≤ c2 && c2 ≤ 0xBF) && (0x80 ≤ c3 && c3 ≤ 0xBF) && utf8Valid rest'
      | _ => false
    else false

/-- Outcome of the `while True` loop of `_update_effect_list`.
`indexError` models a Python `IndexError` from `scene_data[0]` or
`scene_data[2]` on a too-short reply, `decodeError` a
`UnicodeDecodeError` from `scene_data[3:].decode()`, and `fuelOut` that
the loop has not finished within the supplied fuel. -/
inductive BuildOutcome where
  | done (table : EffectTable)
  | indexError
  | decodeError
  | fuelOut
deriving DecidableEq

/-- The loop of `_update_effect_list`, one constructor application per
iteration.  Mirrors the source line by line: break (returning the table
accumulated so far) when `scene_data[0] != 0x00`; record
`effect_map[scene_data[3:].decode()] = scene_id`; advance to
`scene_data[2]`; break when that id is `0xFF`; otherwise fetch the next
descriptor and continue. -/
def buildLoop (g : ℕ → SceneReply) : ℕ → ℕ → EffectTable → BuildOutcome
  | 0, _, _ => .fuelOut
  | fuel + 1, sceneId, table =>
    match (g sceneId)[0]? with
    | none => .indexError
    | some status =>
      if status = 0x00 then
        if utf8Valid ((g sceneId).drop 3) then
          match (g sceneId)[2]? with
          | none => .indexError
          | some nextId =>
            if nextId = 0xFF then .done (dictSet table ((g sceneId).drop 3) sceneId)
            else buildLoop g fuel nextId (dictSet table ((g sceneId).drop 3) sceneId)
        else .decodeError
      else .done table

/-- `_update_effect_list`: start the traversal at scene id 0 with an
empty dictionary. -/
def updateEffectList (g : ℕ → SceneReply) (fuel : ℕ) : BuildOutcome :=
  buildLoop g fuel 0 []

/-- The synthetic malformed firmware of the cycle-safety scenario: the
chain `0 → 3 → 0` (descriptor of scene 0 names it `"off"` and points to
scene 3, descriptor of scene 3 names it `"dim"` and points back to
scene 0; the end marker `0xFF` is never reached). -/
def cycChain : ℕ → SceneReply := fun s =>
  if s = 0 then [0x00, 0x00, 0x03, 0x6F, 0x66, 0x66]
  else if s = 3 then [0x00, 0x00, 0x00, 0x64, 0x69, 0x6D]
  else [0x01]

theorem buildLoop_cycChain_fuelOut (fuel : ℕ) :
    ∀ s table, (s = 0 ∨ s = 3) → buildLoop cycChain fuel s table = .fuelOut := by
  induction fuel with
  | zero => intro s table _; rfl
  | succ n ih =>
    intro s table h
    rcases h with h | h <;> subst h
    · exact ih 3 _ (Or.inr rfl)
    · exact ih 0 _ (Or.inl rfl)

/-- C1 counterexample: on the cyclic chain `0 → 3 → 0` the effect-table
build never terminates with a table — no iteration budget whatsoever
makes the loop return (so it cannot return the claimed
`{"off" ↦ 0, "dim" ↦ 3}` either). -/
theorem updateEffectList_cycChain_never_done :
    ¬ ∃ fuel table, updateEffectList cycChain fuel = .done table := by
  rintro ⟨fuel, table, h⟩
  rw [updateEffectList, buildLoop_cycChain_fuelOut fuel 0 [] (Or.inl rfl)] at h
  exact BuildOutcome.noConfusion h

/-- A run of the traversal that visits the scene ids `ids` in order,
each with a success status byte, a valid-UTF-8 name, and a next-id
pointer that is not the end marker `0xFF`, arriving at scene `bad`. -/
inductive GoodRun (g : ℕ → SceneReply) : ℕ → List ℕ → ℕ → Prop where
  | refl (s : ℕ) : GoodRun g s [] s
  | step {s nxt bad : ℕ} {ids : List ℕ}
      (hst : (g s)[0]? = some 0x00)
      (hutf : utf8Valid ((g s).drop 3) = true)
      (hnx : (g s)[2]? = some nxt)
      (hne : nxt ≠ 0xFF)
      (htail : GoodRun g nxt ids bad) :
      GoodRun g s (s :: ids) bad

/-- The table obtained by recording, for each visited scene id in order,
the entry `name ↦ id` (the Python `effect_map[...] = scene_id` line). -/
def recordRun (g : ℕ → SceneReply) (table : EffectTable) : List ℕ → EffectTable
  | [] => table
  | s :: rest => recordRun g (dictSet table ((g s).drop 3) s) rest

/-- C1 (amended): on the malformed scene chain `0 → 3 → 0`, in which
`next_id` repeats the already-visited scene id 0 before reaching the end
marker `0xFF`, the effect-table build `_update_effect_list` does not
terminate: the source keeps no visited-id set, so the loop revisits the
ids 0 and 3 forever and every finite iteration budget is exhausted. -/
theorem updateEffectList_cycChain_diverges (fuel : ℕ) :
    updateEffectList cycChain fuel = .fuelOut :=
  buildLoop_cycChain_fuelOut fuel 0 [] (Or.inl rfl)

/-- C7: whenever the traversal reaches, after any chain of successfully
decoded descriptors, a scene whose "get scene descriptor" reply has a
non-zero status byte, the build stops right there and returns the table
of the entries recorded so far (it does not raise, run out of fuel, or
keep traversing). -/
theorem buildLoop_stops_on_bad_status (g : ℕ → SceneReply)
    (s bad status : ℕ) (ids : List ℕ) (table : EffectTable) (fuel : ℕ)
    (hrun : GoodRun g s ids bad)
    (hbad : (g bad)[0]? = some status) (hstatus : status ≠ 0x00)
    (hfuel : ids.length < fuel) :
    buildLoop g fuel s table = .done (recordRun g table ids) := by
  induction hrun generalizing table fuel with
  | refl s =>
    obtain ⟨n, rfl⟩ := Nat.exists_eq_succ_of_ne_zero (Nat.pos_iff_ne_zero.mp hfuel)
    simp only [buildLoop, hbad, recordRun]
    rw [if_neg hstatus]
  | step hst hutf hnx hne htail ih =>
    obtain ⟨n, rfl⟩ := Nat.exists_eq_succ_of_ne_zero
      (Nat.pos_iff_ne_zero.mp (Nat.lt_of_le_of_lt (Nat.zero_le _) hfuel))
    simp only [buildLoop, hst, hutf, hnx, if_pos rfl, if_true, if_neg hne, recordRun]
    exact ih _ _ hbad (Nat.lt_of_succ_lt_succ (by simpa using hfuel))

/-- The synthetic firmware of the malformed-response scenario: scene 0
succeeds (name `"off"`, next id 3) and scene 3 answers with a non-zero
status byte `0x01`. -/
def badStatusChain : ℕ → SceneReply := fun s =>
  if s = 0 then [0x00, 0x00, 0x03, 0x6F, 0x66, 0x66] else [0x01]

/-- C7 witness: on `badStatusChain`, one good descriptor (scene 0,
`"off"`) followed by a status-`0x01` reply for scene 3 yields exactly the
partial table `{"off" ↦ 0}`. -/
theorem buildLoop_stops_on_bad_status_witness :
    GoodRun badStatusChain 0 [0] 3 ∧
      updateEffectList badStatusChain 2 = .done [([0x6F, 0x66, 0x66], 0)] := by
  have hrun : GoodRun badStatusChain 0 [0] 3 :=
    GoodRun.step (by decide) (by decide) (by decide) (by decide) (GoodRun.refl 3)
  refine ⟨hrun, ?_⟩
  have := buildLoop_stops_on_bad_status badStatusChain 0 3 0x01 [0] [] 2
    hrun (by decide) (by decide) (by decide)
  simpa [updateEffectList, recordRun, dictSet] using this

/-- C4 (amended): the decoder of a get-scene-descriptor reply takes the
next scene id from the byte at index 2 (two past the status byte) and
the scene name from the bytes at index 3 onward (UTF-8 decoded): one
loop step records `scene_data[3:]` under the current id and then either
stops (next id `0xFF`) or continues at `scene_data[2]`. -/
theorem buildLoop_decode_offsets (g : ℕ → SceneReply) (s nxt : ℕ)
    (table : EffectTable) (fuel : ℕ)
    (h0 : (g s)[0]? = some 0x00)
    (hutf : utf8Valid ((g s).drop 3) = true)
    (h2 : (g s)[2]? = some nxt) :
    buildLoop g (fuel + 1) s table =
      if nxt = 0xFF then .done (dictSet table ((g s).drop 3) s)
      else buildLoop g fuel nxt (dictSet table ((g s).drop 3) s) := by
  simp only [buildLoop, h0, hutf, h2, if_pos rfl, if_true]

/-- A single-scene firmware whose descriptor for scene 0 is
`[0x00, 0x00, 0xFF, 'o', 'n']`: success status, next id `0xFF` (end of
list), name `"on"`. -/
def termChain : ℕ → SceneReply := fun _ => [0x00, 0x00, 0xFF, 0x6F, 0x6E]

/-- C4 witness: on `termChain` the hypotheses hold and one step of the
build records name `"on"` (the bytes from index 3 on) for scene 0 and
stops because the byte at index 2 is `0xFF`. -/
theorem buildLoop_decode_offsets_witness :
    (termChain 0)[0]? = some 0x00 ∧ utf8Valid ((termChain 0).drop 3) = true ∧
      (termChain 0)[2]? = some 0xFF ∧
      buildLoop termChain 1 0 [] = .done [([0x6F, 0x6E], 0)] :=
  ⟨by decide, by decide, by decide,
    (buildLoop_decode_offsets termChain 0 0xFF [] 0 (by decide) (by decide)
      (by decide)).trans (by decide)⟩

/-- The response layout exactly as the specification's command table
states it (`[status, next_id, name_bytes...]`): the next scene id taken
to be the byte immediately following the status byte. -/
def specNextId (d : SceneReply) : Option ℕ := d[1]?

/-- The scene name as the specification states it: all remaining bytes
after the status byte and `next_id`, that is, index 2 onward. -/
def specSceneName (d : SceneReply) : List ℕ := d.drop 2

/-- C4 counterexample: on the reply `[0x00, 0xAA, 0xFF, 0x41]` for
scene 0, the build records the name `[0x41]` (index 3 onward) and stops
(because byte 2 is `0xFF`), although under the specification's layout
the name would be `[0xFF, 0x41]` (index 2 onward) and the next id would
be `0xAA` at index 1, which is not the end marker, so the traversal
would continue. -/
theorem buildLoop_decode_offsets_counterexample :
    updateEffectList (fun s => if s = 0 then [0x00, 0xAA, 0xFF, 0x41] else [0x01]) 5 =
        .done [([0x41], 0)] ∧
      specSceneName [0x00, 0xAA, 0xFF, 0x41] = [0xFF, 0x41] ∧
      ([0x41] : List ℕ) ≠ [0xFF, 0x41] ∧
      specNextId [0x00, 0xAA, 0xFF, 0x41] = some 0xAA ∧
      (0xAA : ℕ) ≠ 0xFF := by
  refine ⟨?_, by decide, by decide, by decide, by decide⟩
  decide

/-- Python `response == 0x00` where `response` is a `bytearray` and
`0x00` an `int` (line `return response == 0x00` of `_set_effect`).  In
CPython, `bytearray.__eq__(int)` and `int.__eq__(bytearray)` both return
`NotImplemented`, so `==` between a `bytearray` and an `int` falls back
to the default comparison of unrelated objects and is `False` for every
pair of values.  (Contrast `_set_brightness`, which compares
`response[0] == 0x00`, an `int`-to-`int` comparison.) -/
def pyBytesEqInt (response : List ℕ) (n : ℕ) : Bool := false

/-- Result of one `_send_and_await_response` exchange as seen by a
caller: either the notification payload is returned, or the underlying
connect/write raises (a bleak transport error), which propagates. -/
inductive CmdResult where
  | ok (response : List ℕ)
  | raise

/-- The logical lamp state held in the `LukeRobertsLuvoBleLight`
instance attributes: `_effect_map` (name → scene id), `_effect`,
`_brightness`, `_hs_color`, `_color_temp_kelvin`. -/
structure LightState where
  effectMap : List (String × ℕ)
  effect : Option String
  brightness : ℕ
  hsColor : ℚ × ℚ
  colorTempKelvin : ℕ
deriving DecidableEq

/-- The attribute values set by `__init__`: empty effect table, no
current effect, brightness 255, HS color `(0.0, 0.0)`, color
temperature 3350 K. -/
def initState : LightState :=
  ⟨[], none, 255, (0, 0), 3350⟩

/-- The keyword arguments of `async_turn_on` (`ATTR_EFFECT`,
`ATTR_BRIGHTNESS`, `ATTR_HS_COLOR`, `ATTR_COLOR_TEMP_KELVIN`); `none`
means the key is absent from `kwargs`. -/
structure TurnOnArgs where
  effect : Option String
  brightness : Option ℕ
  hsColor : Option (ℚ × ℚ)
  colorTempKelvin : Option ℕ
deriving DecidableEq

/-- Observable result of one `async_turn_on` / `async_turn_off` call:
the lamp state afterwards, the frames passed to `write_gatt_char` in
order, and whether an exception propagated out of the call. -/
structure CallResult where
  state : LightState
  frames : List (List ℕ)
  raised : Bool
deriving DecidableEq

/-- Python `self._effect_map.get(k)` where `k` is `self._effect`, which
may be `None`; `dict.get` with a `None` key returns `None` since all
keys are `str`. -/
def pyDictGetOpt (m : List (String × ℕ)) (k : Option String) : Option ℕ :=
  match k with
  | none => none
  | some s => dictGet m s

/-- The `is_on` property: `self._effect_map.get(self._effect) != 0`
(Python: `None != 0` is `True`, and an `int` id compares by value). -/
def is_on (st : LightState) : Bool :=
  decide (pyDictGetOpt st.effectMap st.effect ≠ some 0)

/-- `_get_effect_name_by_id`: first name in the effect table whose id
matches, else `None`. -/
def getEffectNameById (m : List (String × ℕ)) (effectId : ℕ) : Option String :=
  (m.find? (fun p => decide (p.2 = effectId))).map (fun p => p.1)

/-- The frame `b"\xa0\x02\x05" + bytes([effect_id])` written by
`_set_effect`. -/
def setEffectFrame (effectId : ℕ) : List ℕ := [0xA0, 0x02, 0x05, effectId]

/-- The percent byte computed by `async_turn_on`:
`int((brightness / 255) * 100)`. -/
def brightnessPercentByte (brightness : ℕ) : ℕ :=
  (pyInt ((brightness : ℚ) / 255 * 100)).toNat

/-- The frame `bytes([0xA0, 0x01, 0x03, brightness_percent])` written by
`_set_brightness`. -/
def setBrightnessFrame (percent : ℕ) : List ℕ := [0xA0, 0x01, 0x03, percent]

/-- `hue_int` of `_set_uplight_color`: `int((hue / 360) * 65535)`. -/
def hueWord (hue : ℚ) : ℕ := (pyInt (hue / 360 * 65535)).toNat

/-- `saturation_byte` of `_set_uplight_color`:
`int((saturation / 100) * 255)`. -/
def satByte (saturation : ℚ) : ℕ := (pyInt (saturation / 100 * 255)).toNat

/-- Python `n.to_bytes(2, byteorder='big')` for `n < 65536`. -/
def toBytes2BE (n : ℕ) : List ℕ := [n / 256, n % 256]

/-- The ten-byte frame written by `_set_uplight_color`:
`A0 01 02 01 <dur_hi> <dur_lo> <sat> <hue_hi> <hue_lo> <bright>` with a
zero duration. -/
def setUplightColorFrame (hue saturation : ℚ) (brightness : ℕ) : List ℕ :=
  [0xA0, 0x01, 0x02, 0x01] ++ toBytes2BE 0 ++ [satByte saturation] ++
    toBytes2BE (hueWord hue) ++ [brightness]

/-- `max(self.MIN_KELVIN, min(self.MAX_KELVIN, kelvin))`. -/
def clampKelvin (kelvin : ℕ) : ℕ := max 2700 (min 4000 kelvin)

/-- The nine-byte frame written by `_set_downlight_color_temp`:
`A0 01 02 02 <dur_hi> <dur_lo> <kelvin_hi> <kelvin_lo> <bright>` with a
zero duration (the function clamps its kelvin argument again before
encoding). -/
def setDownlightFrame (kelvin brightness : ℕ) : List ℕ :=
  [0xA0, 0x01, 0x02, 0x02] ++ toBytes2BE 0 ++ toBytes2BE (clampKelvin kelvin) ++
    [brightness]

/-- The trailing `if not any(k in kwargs for k in [...])` block of
`async_turn_on`: with no recognized keyword at all, `_set_effect` is
called with `EFFECT_ID_DEFAULT = 255`; its boolean result is not
inspected, so the state is unchanged either way. -/
def defaultPhase (st : LightState) (args : TurnOnArgs)
    (transport : List ℕ → CmdResult) (frames : List (List ℕ)) : CallResult :=
  if args.effect = none ∧ args.brightness = none ∧ args.hsColor = none ∧
      args.colorTempKelvin = none then
    match transport (setEffectFrame 0xFF) with
    | .raise => ⟨st, frames ++ [setEffectFrame 0xFF], true⟩
    | .ok _ => ⟨st, frames ++ [setEffectFrame 0xFF], false⟩
  else ⟨st, frames, false⟩

/-- The `ATTR_COLOR_TEMP_KELVIN` block of `async_turn_on`:
`self._color_temp_kelvin` is assigned and clamped before
`_set_downlight_color_temp` is awaited; the command's boolean result is
ignored, and an exception aborts the call with the assignment already
made. -/
def tempPhase (st : LightState) (args : TurnOnArgs)
    (transport : List ℕ → CmdResult) (frames : List (List ℕ)) : CallResult :=
  match args.colorTempKelvin with
  | none => defaultPhase st args transport frames
  | some kelvin =>
    match transport (setDownlightFrame (clampKelvin kelvin) st.brightness) with
    | .raise =>
      ⟨{ st with colorTempKelvin := clampKelvin kelvin },
        frames ++ [setDownlightFrame (clampKelvin kelvin) st.brightness], true⟩
    | .ok _ =>
      defaultPhase { st with colorTempKelvin := clampKelvin kelvin } args transport
        (frames ++ [setDownlightFrame (clampKelvin kelvin) st.brightness])

/-- The `ATTR_HS_COLOR` block of `async_turn_on`: `self._hs_color` is
assigned before `_set_uplight_color` is awaited with the stored
brightness; the command's boolean result is ignored. -/
def hsPhase (st : LightState) (args : TurnOnArgs)
    (transport : List ℕ → CmdResult) (frames : List (List ℕ)) : CallResult :=
  match args.hsColor with
  | none => tempPhase st args transport frames
  | some hs =>
    match transport (setUplightColorFrame hs.1 hs.2 st.brightness) with
    | .raise =>
      ⟨{ st with hsColor := hs },
        frames ++ [setUplightColorFrame hs.1 hs.2 st.brightness], true⟩
    | .ok _ =>
      tempPhase { st with hsColor := hs } args transport
        (frames ++ [setUplightColorFrame hs.1 hs.2 st.brightness])

/-- The `ATTR_BRIGHTNESS` block of `async_turn_on`: `self._brightness`
is assigned before the percent conversion and `_set_brightness` await;
the command's boolean result is ignored. -/
def brightnessPhase (st : LightState) (args : TurnOnArgs)
    (transport : List ℕ → CmdResult) (frames : List (List ℕ)) : CallResult :=
  match args.brightness with
  | none => hsPhase st args transport frames
  | some b =>
    match transport (setBrightnessFrame (brightnessPercentByte b)) with
    | .raise =>
      ⟨{ st with brightness := b },
        frames ++ [setBrightnessFrame (brightnessPercentByte b)], true⟩
    | .ok _ =>
      hsPhase { st with brightness := b } args transport
        (frames ++ [setBrightnessFrame (brightnessPercentByte b)])

/-- `async_turn_on`.  The `ATTR_EFFECT` block runs first and returns
early: an unknown effect name returns with no wire traffic; otherwise
`_set_effect` is awaited and `self._effect` is updated only if it
reports success — which, per `pyBytesEqInt`, it never does.  Without an
effect keyword the brightness, HS-color, color-temperature and default
blocks run in order, each one aborting the rest if its await raises. -/
def asyncTurnOn (st : LightState) (args : TurnOnArgs)
    (transport : List ℕ → CmdResult) : CallResult :=
  match args.effect with
  | some name =>
    match dictGet st.effectMap name with
    | none => ⟨st, [], false⟩
    | some effectId =>
      match transport (setEffectFrame effectId) with
      | .raise => ⟨st, [setEffectFrame effectId], true⟩
      | .ok response =>
        if pyBytesEqInt response 0x00 then
          ⟨{ st with effect := some name }, [setEffectFrame effectId], false⟩
        else ⟨st, [setEffectFrame effectId], false⟩
  | none => brightnessPhase st args transport []

/-- `async_turn_off`: awaits `_set_effect(EFFECT_ID_OFF)` (frame
`A0 02 05 00`) and updates `self._effect` to scene 0's name only if
`_set_effect` reports success — which, per `pyBytesEqInt`, it never
does. -/
def asyncTurnOff (st : LightState) (transport : List ℕ → CmdResult) : CallResult :=
  match transport (setEffectFrame 0x00) with
  | .raise => ⟨st, [setEffectFrame 0x00], true⟩
  | .ok response =>
    if pyBytesEqInt response 0x00 then
      ⟨{ st with effect := getEffectNameById st.effectMap 0x00 }, [setEffectFrame 0x00], false⟩
    else ⟨st, [setEffectFrame 0x00], false⟩

/-- C10: `is_on` returns `true` whenever the stored current effect name
has no entry in the effect table — the `dict.get` lookup yields `None`,
and Python's `None != 0` is `True`.  This covers the initial state
(effect `None`, empty table). -/
theorem is_on_true_of_no_table_entry (st : LightState)
    (h : pyDictGetOpt st.effectMap st.effect = none) : is_on st = true := by
  simp [is_on, h]

/-- C10 witness: in the `__init__` state the lookup yields nothing and
`is_on` is `true`. -/
theorem is_on_true_of_no_table_entry_witness :
    pyDictGetOpt initState.effectMap initState.effect = none ∧ is_on initState = true :=
  ⟨rfl, is_on_true_of_no_table_entry initState rfl⟩

/-- A lamp state whose effect table knows scenes `"off" ↦ 0` and
`"dim" ↦ 3`, with `"dim"` as the current effect. -/
def offDimState : LightState :=
  ⟨[("off", 0), ("dim", 3)], some "dim", 255, (0, 0), 3350⟩

/-- A transport on which every exchange succeeds and every notification
reply is the single success status byte `0x00`. -/
def okTransport : List ℕ → CmdResult := fun _ => .ok [0x00]

/-- C3: `async_turn_off` writes exactly the frame `A0 02 05 00` (for
every state and transport), but even when the response's status byte is
`0x00` the stored effect is not updated and `is_on` stays `true`:
`_set_effect` evaluates `response == 0x00` with `response` a `bytearray`
and `0x00` an `int`, which is `False` in Python for every response, so
`async_turn_off` never takes its success branch.  Shown concretely on
`offDimState` with the success reply `[0x00]`. -/
theorem asyncTurnOff_frame_and_stuck_effect :
    (∀ (st : LightState) (transport : List ℕ → CmdResult),
        (asyncTurnOff st transport).frames = [[0xA0, 0x02, 0x05, 0x00]]) ∧
      (asyncTurnOff offDimState okTransport).state.effect = some "dim" ∧
      is_on (asyncTurnOff offDimState okTransport).state = true := by
  refine ⟨fun st transport => ?_, by decide, by decide⟩
  unfold asyncTurnOff
  cases h : transport (setEffectFrame 0x00) <;>
    simp [pyBytesEqInt, setEffectFrame]

/-- C6 (amended): a `turnOn` call selecting an effect by a name absent
from the effect table writes no frame to the transport, but it does not
fail either: `async_turn_on` returns silently (no exception is raised —
no `UnknownEffect` error exists in the code base) and the state is
unchanged. -/
theorem asyncTurnOn_unknown_effect_noop (st : LightState) (args : TurnOnArgs)
    (transport : List ℕ → CmdResult) (name : String)
    (heff : args.effect = some name)
    (habs : dictGet st.effectMap name = none) :
    asyncTurnOn st args transport = ⟨st, [], false⟩ := by
  simp [asyncTurnOn, heff, habs]

/-- C6 witness: requesting the unknown effect `"nope"` on the initial
state returns the state unchanged, with no frames and no error. -/
theorem asyncTurnOn_unknown_effect_noop_witness :
    (⟨some "nope", none, none, none⟩ : TurnOnArgs).effect = some "nope" ∧
      dictGet initState.effectMap "nope" = none ∧
      asyncTurnOn initState ⟨some "nope", none, none, none⟩ okTransport =
        ⟨initState, [], false⟩ :=
  ⟨rfl, rfl,
    asyncTurnOn_unknown_effect_noop initState ⟨some "nope", none, none, none⟩
      okTransport "nope" rfl rfl⟩

/-- C6 counterexample: with the unknown effect name `"nope"`, the call
completes without failing (`raised = false` — no `UnknownEffect`, which
does not exist in the code) while indeed writing no frame. -/
theorem asyncTurnOn_unknown_effect_counterexample :
    (asyncTurnOn initState ⟨some "nope", none, none, none⟩ okTransport).raised = false ∧
      (asyncTurnOn initState ⟨some "nope", none, none, none⟩ okTransport).frames = [] :=
  ⟨rfl, rfl⟩

/-- C5 (amended): a `turnOn` call that only sets the color temperature
leaves brightness, HS color, effect name and effect table unchanged
whatever the transport does (including a transport error or any response
status) — but the field being set itself is assigned optimistically
before the command is sent, so it is *not* restored on failure. -/
theorem asyncTurnOn_colorTemp_preserves_others (st : LightState) (args : TurnOnArgs)
    (transport : List ℕ → CmdResult)
    (heff : args.effect = none) (hbr : args.brightness = none)
    (hhs : args.hsColor = none) :
    (asyncTurnOn st args transport).state.brightness = st.brightness ∧
      (asyncTurnOn st args transport).state.hsColor = st.hsColor ∧
      (asyncTurnOn st args transport).state.effect = st.effect ∧
      (asyncTurnOn st args transport).state.effectMap = st.effectMap := by
  cases hk : args.colorTempKelvin with
  | none =>
    cases ht : transport (setEffectFrame 0xFF) <;>
      simp [asyncTurnOn, brightnessPhase, hsPhase, tempPhase, defaultPhase,
        heff, hbr, hhs, hk, ht]
  | some kelvin =>
    cases ht : transport
        (setDownlightFrame (clampKelvin kelvin) st.brightness) <;>
      simp [asyncTurnOn, brightnessPhase, hsPhase, tempPhase, defaultPhase,
        heff, hbr, hhs, hk, ht]

/-- C5 witness: a color-temperature-only call on `offDimState` whose
write raises keeps brightness, HS color, effect and table intact. -/
theorem asyncTurnOn_colorTemp_preserves_others_witness :
    (⟨none, none, none, some 3000⟩ : TurnOnArgs).effect = none ∧
      (asyncTurnOn offDimState ⟨none, none, none, some 3000⟩
          (fun _ => .raise)).state.brightness = offDimState.brightness ∧
      (asyncTurnOn offDimState ⟨none, none, none, some 3000⟩
          (fun _ => .raise)).state.hsColor = offDimState.hsColor ∧
      (asyncTurnOn offDimState ⟨none, none, none, some 3000⟩
          (fun _ => .raise)).state.effect = offDimState.effect ∧
      (asyncTurnOn offDimState ⟨none, none, none, some 3000⟩
          (fun _ => .raise)).state.effectMap = offDimState.effectMap :=
  ⟨rfl, asyncTurnOn_colorTemp_preserves_others offDimState
    ⟨none, none, none, some 3000⟩ (fun _ => .raise) rfl rfl rfl⟩

/-- C5 counterexample: the claim says a failed command leaves the
previously-known state — color temperature included — unchanged, but a
color-temperature set whose write raises still changes the stored color
temperature from 3350 K to the requested 3000 K (the assignment happens
before the await). -/
theorem asyncTurnOn_failed_colorTemp_counterexample :
    (asyncTurnOn offDimState ⟨none, none, none, some 3000⟩
        (fun _ => .raise)).raised = true ∧
      offDimState.colorTempKelvin = 3350 ∧
      (asyncTurnOn offDimState ⟨none, none, none, some 3000⟩
          (fun _ => .raise)).state.colorTempKelvin = 3000 :=
  ⟨rfl, rfl, rfl⟩

theorem pyInt_eq_floor (q : ℚ) (h : 0 ≤ q) : pyInt q = ⌊q⌋ := if_pos h

/-- The percent byte `int((brightness / 255) * 100)` equals the natural
floor division `100 * brightness / 255`.  (For `brightness ≤ 255` the
double-precision product the source actually computes never lands close
enough to an integer boundary for its truncation to differ from the
exact rational one, so this is also the byte on the wire.) -/
theorem brightnessPercentByte_eq (b : ℕ) :
    brightnessPercentByte b = 100 * b / 255 := by
  have h1 : ((b : ℚ) / 255 * 100) = ((100 * b : ℕ) : ℚ) / ((255 : ℕ) : ℚ) := by
    push_cast; ring
  rw [brightnessPercentByte, pyInt_eq_floor _ (by positivity), h1,
    Rat.floor_natCast_div_natCast]
  norm_cast

theorem defaultPhase_frames_append (st : LightState) (args : TurnOnArgs)
    (transport : List ℕ → CmdResult) (frames : List (List ℕ)) :
    ∃ tail, (defaultPhase st args transport frames).frames = frames ++ tail := by
  unfold defaultPhase
  split
  · cases transport (setEffectFrame 0xFF) <;> exact ⟨_, rfl⟩
  · exact ⟨[], (List.append_nil frames).symm⟩

theorem tempPhase_frames_append (st : LightState) (args : TurnOnArgs)
    (transport : List ℕ → CmdResult) (frames : List (List ℕ)) :
    ∃ tail, (tempPhase st args transport frames).frames = frames ++ tail := by
  cases hk : args.colorTempKelvin with
  | none =>
    simp only [tempPhase, hk]
    exact defaultPhase_frames_append ..
  | some kelvin =>
    cases ht : transport (setDownlightFrame (clampKelvin kelvin) st.brightness) with
    | raise =>
      refine ⟨[setDownlightFrame (clampKelvin kelvin) st.brightness], ?_⟩
      simp only [tempPhase, hk, ht]
    | ok _ =>
      obtain ⟨tail, htail⟩ := defaultPhase_frames_append
        { st with colorTempKelvin := clampKelvin kelvin } args transport
        (frames ++ [setDownlightFrame (clampKelvin kelvin) st.brightness])
      refine ⟨setDownlightFrame (clampKelvin kelvin) st.brightness :: tail, ?_⟩
      simp only [tempPhase, hk, ht]
      exact htail.trans (List.append_assoc ..)

theorem hsPhase_frames_append (st : LightState) (args : TurnOnArgs)
    (transport : List ℕ → CmdResult) (frames : List (List ℕ)) :
    ∃ tail, (hsPhase st args transport frames).frames = frames ++ tail := by
  cases hh : args.hsColor with
  | none =>
    simp only [hsPhase, hh]
    exact tempPhase_frames_append ..
  | some hs =>
    cases ht : transport (setUplightColorFrame hs.1 hs.2 st.brightness) with
    | raise =>
      refine ⟨[setUplightColorFrame hs.1 hs.2 st.brightness], ?_⟩
      simp only [hsPhase, hh, ht]
    | ok _ =>
      obtain ⟨tail, htail⟩ := tempPhase_frames_append
        { st with hsColor := hs } args transport
        (frames ++ [setUplightColorFrame hs.1 hs.2 st.brightness])
      refine ⟨setUplightColorFrame hs.1 hs.2 st.brightness :: tail, ?_⟩
      simp only [hsPhase, hh, ht]
      exact htail.trans (List.append_assoc ..)

/-- C8 (amended): a `turnOn` call with canonical brightness
`b ∈ [0, 255]` writes, as its first frame, the absolute-brightness frame
`A0 01 03 <percent>` with `percent = ⌊b / 255 * 100⌋` — the source
truncates with `int(...)`, it does not round. -/
theorem asyncTurnOn_brightness_percent (st : LightState) (args : TurnOnArgs)
    (transport : List ℕ → CmdResult) (b : ℕ)
    (hb : b ≤ 255) (heff : args.effect = none) (hbr : args.brightness = some b) :
    brightnessPercentByte b = 100 * b / 255 ∧
      (asyncTurnOn st args transport).frames.head? =
        some [0xA0, 0x01, 0x03, 100 * b / 255] := by
  refine ⟨brightnessPercentByte_eq b, ?_⟩
  cases ht : transport (setBrightnessFrame (brightnessPercentByte b)) with
  | raise =>
    simp only [asyncTurnOn, brightnessPhase, heff, hbr, ht]
    simp [setBrightnessFrame, brightnessPercentByte_eq]
  | ok _ =>
    obtain ⟨tail, htail⟩ := hsPhase_frames_append
      { st with brightness := b } args transport
      [setBrightnessFrame (brightnessPercentByte b)]
    simp only [asyncTurnOn, brightnessPhase, heff, hbr, ht, List.nil_append, htail]
    simp [setBrightnessFrame, brightnessPercentByte_eq]

/-- C8 witness: brightness 128 goes on the wire as
`A0 01 03 <100 * 128 / 255>` (= 50 percent). -/
theorem asyncTurnOn_brightness_percent_witness :
    (128 : ℕ) ≤ 255 ∧
      (brightnessPercentByte 128 = 100 * 128 / 255 ∧
        (asyncTurnOn initState ⟨none, some 128, none, none⟩ okTransport).frames.head? =
          some [0xA0, 0x01, 0x03, 100 * 128 / 255]) :=
  ⟨by decide,
    asyncTurnOn_brightness_percent initState ⟨none, some 128, none, none⟩
      okTransport 128 (by decide) rfl rfl⟩

/-- The brightness conversion exactly as the specification's numeric
helper table states it: `round(canonical / 255 * 100)`. -/
def specPercent (brightness : ℕ) : ℤ := round ((brightness : ℚ) / 255 * 100)

/-- C8 counterexample: for canonical brightness 4 the code sends the
percent byte `int(4 / 255 * 100) = 1`, while
`round(4 / 255 * 100) = round(1.568...) = 2`. -/
theorem asyncTurnOn_brightness_percent_counterexample :
    (asyncTurnOn initState ⟨none, some 4, none, none⟩ okTransport).frames =
        [[0xA0, 0x01, 0x03, 1]] ∧ specPercent 4 = 2 ∧ (1 : ℤ) ≠ 2 := by
  refine ⟨?_, by norm_num [specPercent, round_eq], by decide⟩
  simp [asyncTurnOn, brightnessPhase, hsPhase, tempPhase, defaultPhase,
    okTransport, setBrightnessFrame, brightnessPercentByte_eq]

/-- The inverse hue mapping of the specification's round-trip property
(`decode_hue`): scale the 16-bit wire value back to degrees. -/
def specDecodeHue (w : ℕ) : ℚ := (w : ℚ) / 65535 * 360

/-- The hue conversion exactly as the specification's numeric helper
table states it: `round(hue / 360 * 65535)`. -/
def specEncodeHue (hue : ℚ) : ℤ := round (hue / 360 * 65535)

/-- C9 (amended): for `hue ∈ [0, 360)`, the 16-bit big-endian wire hue
in the uplight-color frame (bytes 7 and 8) is
`⌊hue / 360 * 65535⌋` — the source truncates with `int(...)`, it does
not round — and decoding the wire value back still differs from the
original hue by at most one wire unit (`360 / 65535` degrees). -/
theorem setUplightColorFrame_hue (hue saturation : ℚ) (brightness : ℕ)
    (h0 : 0 ≤ hue) (h1 : hue < 360) :
    (setUplightColorFrame hue saturation brightness)[7]? = some (hueWord hue / 256) ∧
      (setUplightColorFrame hue saturation brightness)[8]? = some (hueWord hue % 256) ∧
      256 * (hueWord hue / 256) + hueWord hue % 256 = hueWord hue ∧
      (hueWord hue : ℤ) = ⌊hue / 360 * 65535⌋ ∧
      |specDecodeHue (hueWord hue) - hue| ≤ 360 / 65535 := by
  have hq0 : 0 ≤ hue / 360 * 65535 :=
    mul_nonneg (div_nonneg h0 (by norm_num)) (by norm_num)
  have hw : (hueWord hue : ℤ) = ⌊hue / 360 * 65535⌋ := by
    rw [hueWord, pyInt_eq_floor _ hq0]
    exact Int.toNat_of_nonneg (Int.floor_nonneg.mpr hq0)
  have hwQ : ((hueWord hue : ℕ) : ℚ) = ((⌊hue / 360 * 65535⌋ : ℤ) : ℚ) := by
    exact_mod_cast congrArg (fun z : ℤ => (z : ℚ)) hw
  refine ⟨rfl, rfl, Nat.div_add_mod (hueWord hue) 256, hw, ?_⟩
  have hb1 : ((⌊hue / 360 * 65535⌋ : ℤ) : ℚ) ≤ hue / 360 * 65535 :=
    Int.floor_le _
  have hb2 : hue / 360 * 65535 - 1 < ((⌊hue / 360 * 65535⌋ : ℤ) : ℚ) :=
    Int.sub_one_lt_floor _
  have hdiff : specDecodeHue (hueWord hue) - hue =
      (((⌊hue / 360 * 65535⌋ : ℤ) : ℚ) - hue / 360 * 65535) * (360 / 65535) := by
    rw [specDecodeHue, hwQ]; ring
  rw [hdiff, abs_mul, abs_of_nonneg (show (0 : ℚ) ≤ 360 / 65535 by norm_num),
    abs_of_nonpos (by linarith)]
  nlinarith [hb1, hb2]

/-- C9 witness: hue 180° encodes to wire word `⌊180 / 360 * 65535⌋` in
frame bytes 7–8 and decodes back to within one wire unit. -/
theorem setUplightColorFrame_hue_witness :
    (0 : ℚ) ≤ 180 ∧ (180 : ℚ) < 360 ∧
      ((setUplightColorFrame 180 50 200)[7]? = some (hueWord 180 / 256) ∧
        (setUplightColorFrame 180 50 200)[8]? = some (hueWord 180 % 256) ∧
        256 * (hueWord 180 / 256) + hueWord 180 % 256 = hueWord 180 ∧
        (hueWord 180 : ℤ) = ⌊(180 : ℚ) / 360 * 65535⌋ ∧
        |specDecodeHue (hueWord 180) - 180| ≤ 360 / 65535) :=
  ⟨by norm_num, by norm_num,
    setUplightColorFrame_hue 180 50 200 (by norm_num) (by norm_num)⟩

/-- C9 counterexample: for hue 359° the code computes the wire hue
`int(359 / 360 * 65535) = 65352` (bytes `FF 48`), while
`round(359 / 360 * 65535) = round(65352.9625) = 65353`. -/
theorem setUplightColorFrame_hue_counterexample :
    hueWord 359 = 65352 ∧
      (setUplightColorFrame 359 50 200)[7]? = some 255 ∧
      (setUplightColorFrame 359 50 200)[8]? = some 72 ∧
      specEncodeHue 359 = 65353 ∧ (65352 : ℕ) ≠ 65353 := by
  have hw : hueWord 359 = 65352 := by
    rw [hueWord, pyInt_eq_floor _ (by norm_num)]
    norm_num
    decide
  refine ⟨hw, ?_, ?_, by norm_num [specEncodeHue, round_eq], by decide⟩ <;>
    simp [setUplightColorFrame, toBytes2BE, hw]

/-- Outcome of one `_send_and_await_response` call as the specification
classifies it: a returned notification payload, a `TimeoutError`, or the
call still suspended awaiting the notification event. -/
inductive ExchangeOutcome where
  | success (response : List ℕ)
  | timeoutError
  | waiting
deriving DecidableEq

/-- The `await data_received_flag.wait()` step of
`_send_and_await_response`, observed over a discrete timeline:
`notif t` is the notification payload (if any) delivered at instant `t`
after the write, and the fuel bounds how long we watch the suspended
call.  The source never wraps the wait in `asyncio.wait_for` (or any
other deadline), so the embedding has exactly two reachable outcomes:
`success` once a notification fires the handler, and `waiting` while
none has; there is no code path producing `timeoutError`. -/
def sendAndAwaitResponse (notif : ℕ → Option (List ℕ)) : ℕ → ℕ → ExchangeOutcome
  | 0, _ => .waiting
  | fuel + 1, t =>
    match notif t with
    | some d => .success d
    | none => sendAndAwaitResponse notif fuel (t + 1)

theorem sendAndAwaitResponse_none_waiting (notif : ℕ → Option (List ℕ))
    (h : ∀ t, notif t = none) :
    ∀ fuel t, sendAndAwaitResponse notif fuel t = .waiting := by
  intro fuel
  induction fuel with
  | zero => intro t; rfl
  | succ n ih =>
    intro t
    simp only [sendAndAwaitResponse, h t]
    exact ih (t + 1)

/-- C2 (amended): when no notification ever arrives, a
`_send_and_await_response` call does not fail with `TimeoutError` — it
never completes at all: however long one waits, the call is still
suspended on `data_received_flag.wait()`, because the source configures
no timeout for the wait. -/
theorem sendAndAwaitResponse_no_timeout (notif : ℕ → Option (List ℕ))
    (h : ∀ t, notif t = none) (fuel t : ℕ) :
    sendAndAwaitResponse notif fuel t = .waiting ∧
      sendAndAwaitResponse notif fuel t ≠ .timeoutError := by
  refine ⟨sendAndAwaitResponse_none_waiting notif h fuel t, ?_⟩
  rw [sendAndAwaitResponse_none_waiting notif h fuel t]
  exact fun hc => ExchangeOutcome.noConfusion hc

/-- C2 witness: with the silent notification timeline, after a window of
1000 polls the call is still waiting and has not raised `TimeoutError`. -/
theorem sendAndAwaitResponse_no_timeout_witness :
    (∀ t : ℕ, (fun _ : ℕ => (none : Option (List ℕ))) t = none) ∧
      (sendAndAwaitResponse (fun _ => none) 1000 0 = .waiting ∧
        sendAndAwaitResponse (fun _ => none) 1000 0 ≠ .timeoutError) :=
  ⟨fun _ => rfl, sendAndAwaitResponse_no_timeout (fun _ => none) (fun _ => rfl) 1000 0⟩

/-- C2 counterexample: on the timeline where no notification ever
arrives, there is no waiting window after which the call has failed with
`TimeoutError` — the `timeoutError` outcome is unreachable, the call
merely stays suspended. -/
theorem sendAndAwaitResponse_counterexample :
    ¬ ∃ fuel, sendAndAwaitResponse (fun _ => none) fuel 0 = .timeoutError := by
  rintro ⟨fuel, h⟩
  rw [sendAndAwaitResponse_none_waiting (fun _ => none) (fun _ => rfl) fuel 0] at h
  exact ExchangeOutcome.noConfusion h
